import Mathlib

/-!
Verification development for the RFB-ESRGAN model definition
(src/rfb_esrgan_pytorch/model.py).

The file contains a shallow embedding of the network architecture at two
levels:

* a shape-level semantics: a tensor shape is a 4-tuple of naturals
  (batch, channels, height, width), and every layer is a partial function on
  shapes that returns `none` exactly when PyTorch would raise a shape error
  (channel mismatch, non-positive convolution output size, mismatched
  concatenation or broadcasting operands).  Module forward passes are
  functions into an error monad that also distinguishes the two runtime
  failures that are not shape errors: reading a module attribute that the
  constructor never assigned (Python AttributeError), and passing a
  non-tensor (None) argument to a convolution (Python TypeError).

* a value-level semantics: a tensor is a shape together with a
  rational-valued indexing function, and layers compute exactly the
  arithmetic of the source (convolution as a triple sum over input channels
  and kernel offsets with zero padding, leaky ReLU pointwise, nearest
  upsampling, pixel shuffle, channel concatenation, broadcast addition).

All module definitions are translated line by line from the source file;
conv-layer configurations are written as
(in_channels, out_channels, kernel_h, kernel_w, stride_h, stride_w,
 padding_h, padding_w, dilation_h, dilation_w).
-/

/-- Shape of a 4-dimensional tensor: (batch, channels, height, width). -/
structure Shape4 where
  n : ℕ
  c : ℕ
  h : ℕ
  w : ℕ
  deriving DecidableEq, Repr

/-- Shape of a 2-dimensional tensor: (batch, features). -/
structure Shape2 where
  n : ℕ
  f : ℕ
  deriving DecidableEq, Repr

/-- Runtime failures a forward pass can produce.  `shapeMismatch` covers every
tensor-shape error raised inside a layer; `missingAttribute` is Python's
AttributeError for reading an attribute the constructor never assigned;
`notATensor` is the TypeError raised when a layer receives None instead of a
tensor. -/
inductive MErr where
  | shapeMismatch
  | missingAttribute
  | notATensor
  deriving DecidableEq, Repr

/-- Result monad of a forward pass. -/
abbrev M (α : Type) : Type := Except MErr α

/-- Lift a partial shape computation into the forward-pass monad: a `none`
result is a shape-mismatch error. -/
def liftS {α : Type} : Option α → M α
  | some a => Except.ok a
  | none => Except.error MErr.shapeMismatch

@[simp] theorem liftS_some {α : Type} (a : α) : liftS (some a) = Except.ok a := rfl

@[simp] theorem liftS_none {α : Type} : (liftS none : M α) = Except.error MErr.shapeMismatch := rfl

@[simp] theorem ok_bind {α β : Type} (a : α) (f : α → M β) :
    (Except.ok a : M α) >>= f = f a := rfl

@[simp] theorem error_bind {α β : Type} (e : MErr) (f : α → M β) :
    (Except.error e : M α) >>= f = Except.error e := rfl

/-- Configuration of an `nn.Conv2d` layer. -/
structure Conv2dCfg where
  inC : ℕ
  outC : ℕ
  kh : ℕ
  kw : ℕ
  sh : ℕ
  sw : ℕ
  ph : ℕ
  pw : ℕ
  dh : ℕ
  dw : ℕ
  deriving DecidableEq, Repr

/-- Output extent of a convolution along one spatial dimension:
floor((size + 2*padding - dilation*(kernel-1) - 1) / stride) + 1, defined
exactly when that quantity is at least 1 (PyTorch raises otherwise). -/
def convOutDim (size k s p d : ℕ) : Option ℕ :=
  if d * (k - 1) + 1 ≤ size + 2 * p then
    some ((size + 2 * p - (d * (k - 1) + 1)) / s + 1)
  else
    none

/-- Shape semantics of `nn.Conv2d`: the input channel count must equal the
layer's declared `in_channels` and both spatial output extents must be
positive. -/
def conv2dShape (cfg : Conv2dCfg) (x : Shape4) : Option Shape4 :=
  if x.c = cfg.inC then
    match convOutDim x.h cfg.kh cfg.sh cfg.ph cfg.dh,
          convOutDim x.w cfg.kw cfg.sw cfg.pw cfg.dw with
    | some oh, some ow => some ⟨x.n, cfg.outC, oh, ow⟩
    | _, _ => none
  else
    none

/-- Shape semantics of `nn.BatchNorm2d`. -/
def batchNorm2dShape (c : ℕ) (x : Shape4) : Option Shape4 :=
  if x.c = c then some x else none

/-- Activation layers are pointwise, so at shape level they are the
identity.  Kept as a named function so forward passes mirror the source. -/
def lreluShape (x : Shape4) : Shape4 := x

/-- Shape semantics of `nn.Upsample(scale_factor=2)`. -/
def upsample2Shape (x : Shape4) : Shape4 :=
  ⟨x.n, x.c, 2 * x.h, 2 * x.w⟩

/-- Shape semantics of `nn.PixelShuffle(upscale_factor=2)`: requires the
channel count to be divisible by 4. -/
def pixelShuffle2Shape (x : Shape4) : Option Shape4 :=
  if x.c % 4 = 0 then some ⟨x.n, x.c / 4, 2 * x.h, 2 * x.w⟩ else none

/-- Shape semantics of `torch.cat(xs, dim=1)`: all operands must agree on
batch, height and width; channel counts add. -/
def catShape : List Shape4 → Option Shape4
  | [] => none
  | x :: rest =>
    if ∀ y ∈ rest, y.n = x.n ∧ y.h = x.h ∧ y.w = x.w then
      some ⟨x.n, x.c + (rest.map Shape4.c).sum, x.h, x.w⟩
    else
      none

/-- One dimension of PyTorch broadcasting. -/
def broadcastDim (a b : ℕ) : Option ℕ :=
  if a = b then some a else if a = 1 then some b else if b = 1 then some a else none

/-- Shape semantics of elementwise tensor addition (with broadcasting). -/
def addShape (x y : Shape4) : Option Shape4 := do
  let n ← broadcastDim x.n y.n
  let c ← broadcastDim x.c y.c
  let h ← broadcastDim x.h y.h
  let w ← broadcastDim x.w y.w
  some ⟨n, c, h, w⟩

/-- Multiplying a tensor by a python scalar keeps its shape. -/
def mulScalarShape (x : Shape4) : Shape4 := x

/-- Shape semantics of `nn.AdaptiveAvgPool2d((7, 7))`: defined for any
non-empty spatial extent. -/
def adaptiveAvgPool7Shape (x : Shape4) : Option Shape4 :=
  if 1 ≤ x.h ∧ 1 ≤ x.w then some ⟨x.n, x.c, 7, 7⟩ else none

/-- Shape semantics of `torch.flatten(x, 1)`. -/
def flatten1 (x : Shape4) : Shape2 :=
  ⟨x.n, x.c * x.h * x.w⟩

/-- Shape semantics of `nn.Linear`. -/
def linearShape (inF outF : ℕ) (x : Shape2) : Option Shape2 :=
  if x.f = inF then some ⟨x.n, outF⟩ else none

/-! Evaluation lemmas for the convolution geometries that occur in the
source file. -/

theorem convOutDim_k1p0 (h : ℕ) :
    convOutDim h 1 1 0 1 = if 1 ≤ h then some h else none := by
  unfold convOutDim
  rcases Nat.lt_or_ge h 1 with hh | hh
  · rw [if_neg (by omega), if_neg (by omega)]
  · rw [if_pos (by omega), if_pos (by omega)]
    simp only [Option.some.injEq]
    omega

theorem convOutDim_k1p1 (h : ℕ) : convOutDim h 1 1 1 1 = some (h + 2) := by
  unfold convOutDim
  rw [if_pos (by omega)]
  simp only [Option.some.injEq]
  omega

theorem convOutDim_k3p1 (h : ℕ) :
    convOutDim h 3 1 1 1 = if 1 ≤ h then some h else none := by
  unfold convOutDim
  rcases Nat.lt_or_ge h 1 with hh | hh
  · rw [if_neg (by omega), if_neg (by omega)]
  · rw [if_pos (by omega), if_pos (by omega)]
    simp only [Option.some.injEq]
    omega

theorem convOutDim_k3p3d3 (h : ℕ) :
    convOutDim h 3 1 3 3 = if 1 ≤ h then some h else none := by
  unfold convOutDim
  rcases Nat.lt_or_ge h 1 with hh | hh
  · rw [if_neg (by omega), if_neg (by omega)]
  · rw [if_pos (by omega), if_pos (by omega)]
    simp only [Option.some.injEq]
    omega

theorem convOutDim_k3p5d5 (h : ℕ) :
    convOutDim h 3 1 5 5 = if 1 ≤ h then some h else none := by
  unfold convOutDim
  rcases Nat.lt_or_ge h 1 with hh | hh
  · rw [if_neg (by omega), if_neg (by omega)]
  · rw [if_pos (by omega), if_pos (by omega)]
    simp only [Option.some.injEq]
    omega

theorem convOutDim_k4s2p1 (h : ℕ) :
    convOutDim h 4 2 1 1 = if 2 ≤ h then some (h / 2) else none := by
  unfold convOutDim
  rcases Nat.lt_or_ge h 2 with hh | hh
  · rw [if_neg (by omega), if_neg (by omega)]
  · rw [if_pos (by omega), if_pos (by omega)]
    simp only [Option.some.injEq]
    omega

/-- A convolution rejects an input whose channel count differs from the
declared `in_channels`. -/
theorem conv2dShape_mismatch (cfg : Conv2dCfg) (x : Shape4) (hc : x.c ≠ cfg.inC) :
    conv2dShape cfg x = none := by
  unfold conv2dShape
  rw [if_neg hc]

theorem conv2dShape_k1 (ci co n h w : ℕ) (hh : 1 ≤ h) (hw : 1 ≤ w) :
    conv2dShape ⟨ci, co, 1, 1, 1, 1, 0, 0, 1, 1⟩ ⟨n, ci, h, w⟩ = some ⟨n, co, h, w⟩ := by
  unfold conv2dShape
  rw [if_pos rfl]
  simp only [convOutDim_k1p0, if_pos hh, if_pos hw]

theorem conv2dShape_k1p1 (ci co n h w : ℕ) :
    conv2dShape ⟨ci, co, 1, 1, 1, 1, 1, 1, 1, 1⟩ ⟨n, ci, h, w⟩ =
      some ⟨n, co, h + 2, w + 2⟩ := by
  unfold conv2dShape
  rw [if_pos rfl]
  simp only [convOutDim_k1p1]

theorem conv2dShape_k13 (ci co n h w : ℕ) (hh : 1 ≤ h) (hw : 1 ≤ w) :
    conv2dShape ⟨ci, co, 1, 3, 1, 1, 0, 1, 1, 1⟩ ⟨n, ci, h, w⟩ = some ⟨n, co, h, w⟩ := by
  unfold conv2dShape
  rw [if_pos rfl]
  simp only [convOutDim_k1p0, convOutDim_k3p1, if_pos hh, if_pos hw]

theorem conv2dShape_k31 (ci co n h w : ℕ) (hh : 1 ≤ h) (hw : 1 ≤ w) :
    conv2dShape ⟨ci, co, 3, 1, 1, 1, 1, 0, 1, 1⟩ ⟨n, ci, h, w⟩ = some ⟨n, co, h, w⟩ := by
  unfold conv2dShape
  rw [if_pos rfl]
  simp only [convOutDim_k1p0, convOutDim_k3p1, if_pos hh, if_pos hw]

theorem conv2dShape_k3 (ci co n h w : ℕ) (hh : 1 ≤ h) (hw : 1 ≤ w) :
    conv2dShape ⟨ci, co, 3, 3, 1, 1, 1, 1, 1, 1⟩ ⟨n, ci, h, w⟩ = some ⟨n, co, h, w⟩ := by
  unfold conv2dShape
  rw [if_pos rfl]
  simp only [convOutDim_k3p1, if_pos hh, if_pos hw]

theorem conv2dShape_k3d3 (ci co n h w : ℕ) (hh : 1 ≤ h) (hw : 1 ≤ w) :
    conv2dShape ⟨ci, co, 3, 3, 1, 1, 3, 3, 3, 3⟩ ⟨n, ci, h, w⟩ = some ⟨n, co, h, w⟩ := by
  unfold conv2dShape
  rw [if_pos rfl]
  simp only [convOutDim_k3p3d3, if_pos hh, if_pos hw]

theorem conv2dShape_k3d5 (ci co n h w : ℕ) (hh : 1 ≤ h) (hw : 1 ≤ w) :
    conv2dShape ⟨ci, co, 3, 3, 1, 1, 5, 5, 5, 5⟩ ⟨n, ci, h, w⟩ = some ⟨n, co, h, w⟩ := by
  unfold conv2dShape
  rw [if_pos rfl]
  simp only [convOutDim_k3p5d5, if_pos hh, if_pos hw]

theorem conv2dShape_k4s2 (ci co n h w : ℕ) (hh : 2 ≤ h) (hw : 2 ≤ w) :
    conv2dShape ⟨ci, co, 4, 4, 2, 2, 1, 1, 1, 1⟩ ⟨n, ci, h, w⟩ =
      some ⟨n, co, h / 2, w / 2⟩ := by
  unfold conv2dShape
  rw [if_pos rfl]
  simp only [convOutDim_k4s2p1, if_pos hh, if_pos hw]

/-! ## Module graph (shape level)

Layer kinds occurring inside `nn.Sequential` stacks of 4-d layers. -/

/-- A single layer of a 4-d `nn.Sequential` stack. -/
inductive SLayer where
  | conv (cfg : Conv2dCfg)
  | bn (c : ℕ)
  | relu
  | lrelu
  deriving DecidableEq, Repr

/-- Shape action of a single 4-d layer. -/
def SLayer.apply : SLayer → Shape4 → Option Shape4
  | .conv cfg, s => conv2dShape cfg s
  | .bn c, s => batchNorm2dShape c s
  | .relu, s => some s
  | .lrelu, s => some (lreluShape s)

/-- Shape action of an `nn.Sequential` stack of 4-d layers. -/
def runSeq : List SLayer → Shape4 → Option Shape4
  | [], s => some s
  | l :: ls, s => (l.apply s).bind (runSeq ls)

@[simp] theorem runSeq_nil (s : Shape4) : runSeq [] s = some s := rfl

@[simp] theorem runSeq_cons (l : SLayer) (ls : List SLayer) (s : Shape4) :
    runSeq (l :: ls) s = (l.apply s).bind (runSeq ls) := rfl

/-- A layer of the discriminator's 2-d classifier stack. -/
inductive CLayer where
  | linear (inF outF : ℕ)
  | lrelu
  deriving DecidableEq, Repr

/-- Shape action of a 2-d classifier layer. -/
def CLayer.apply : CLayer → Shape2 → Option Shape2
  | .linear inF outF, s => linearShape inF outF s
  | .lrelu, s => some s

/-- Shape action of the classifier `nn.Sequential`. -/
def runCSeq : List CLayer → Shape2 → Option Shape2
  | [], s => some s
  | l :: ls, s => (l.apply s).bind (runCSeq ls)

@[simp] theorem runCSeq_nil (s : Shape2) : runCSeq [] s = some s := rfl

@[simp] theorem runCSeq_cons (l : CLayer) (ls : List CLayer) (s : Shape2) :
    runCSeq (l :: ls) s = (l.apply s).bind (runCSeq ls) := rfl

/-! ### class Inception

Python attributes assigned by `__init__` are modelled as record fields; the
`scale_ratio` attribute slot is an `Option` so that a forward pass reading an
attribute the constructor never assigned produces `MErr.missingAttribute`,
exactly as Python raises AttributeError. -/

/-- Module state of `Inception` as built by `Inception.__init__`. -/
structure Inception where
  shortcut : Conv2dCfg
  branch1 : List SLayer
  branch2 : List SLayer
  branch3 : List SLayer
  branch4 : List SLayer
  conv1x1 : Conv2dCfg
  lrelu : Option Unit
  scale_ratio : Option ℚ
  deriving DecidableEq

/-- `Inception.__init__(in_channels, out_channels, scale_ratio,
non_linearity)`, with `channels = in_channels // 4`. -/
def Inception.init (in_channels out_channels : ℕ) (sc : ℚ) (non_linearity : Bool) :
    Inception :=
  let channels := in_channels / 4
  { shortcut := ⟨in_channels, out_channels, 1, 1, 1, 1, 0, 0, 1, 1⟩
    branch1 := [.conv ⟨in_channels, channels, 1, 1, 1, 1, 0, 0, 1, 1⟩, .relu,
                .conv ⟨channels, channels, 1, 1, 1, 1, 1, 1, 1, 1⟩]
    branch2 := [.conv ⟨in_channels, channels, 1, 1, 1, 1, 0, 0, 1, 1⟩, .relu,
                .conv ⟨channels, channels, 1, 3, 1, 1, 0, 1, 1, 1⟩, .relu,
                .conv ⟨channels, channels, 3, 3, 1, 1, 3, 3, 3, 3⟩]
    branch3 := [.conv ⟨in_channels, channels, 1, 1, 1, 1, 0, 0, 1, 1⟩, .relu,
                .conv ⟨channels, channels, 3, 1, 1, 1, 1, 0, 1, 1⟩, .relu,
                .conv ⟨channels, channels, 3, 3, 1, 1, 3, 3, 3, 3⟩]
    branch4 := [.conv ⟨in_channels, channels / 2, 1, 1, 1, 1, 0, 0, 1, 1⟩, .relu,
                .conv ⟨channels / 4, channels / 4 * 3, 1, 3, 1, 1, 0, 1, 1, 1⟩, .relu,
                .conv ⟨channels / 4 * 3, channels, 1, 3, 1, 1, 0, 1, 1, 1⟩, .relu,
                .conv ⟨channels, channels, 3, 3, 1, 1, 5, 5, 5, 5⟩]
    conv1x1 := ⟨in_channels, out_channels, 1, 1, 1, 1, 0, 0, 1, 1⟩
    lrelu := if non_linearity then some () else none
    scale_ratio := some sc }

/-- `Inception.forward`. -/
def Inception.forward (self : Inception) (input : Shape4) : M Shape4 := do
  let shortcut ← liftS (conv2dShape self.shortcut input)
  let branch1 ← liftS (runSeq self.branch1 input)
  let branch2 ← liftS (runSeq self.branch2 input)
  let branch3 ← liftS (runSeq self.branch3 input)
  let branch4 ← liftS (runSeq self.branch4 input)
  let out ← liftS (catShape [branch1, branch2, branch3, branch4])
  let out ← liftS (conv2dShape self.conv1x1 out)
  match self.scale_ratio with
  | none => Except.error MErr.missingAttribute
  | some _ => do
    let out ← liftS (addShape (mulScalarShape shortcut) out)
    match self.lrelu with
    | some _ => Except.ok (lreluShape out)
    | none => Except.ok out

/-! ### class ReceptiveFieldsDenseBlock

Note: the source `__init__` assigns only `conv1` .. `conv5`; the
`scale_ratio` argument is discarded and `self.scale_ratio` is never
assigned, so its attribute slot is `none`. -/

/-- Module state of `ReceptiveFieldsDenseBlock`. -/
structure ReceptiveFieldsDenseBlock where
  conv1 : Inception
  conv2 : Inception
  conv3 : Inception
  conv4 : Inception
  conv5 : Inception
  scale_ratio : Option ℚ
  deriving DecidableEq

/-- `ReceptiveFieldsDenseBlock.__init__(in_channels, growth_channels,
scale_ratio)`.  The third argument is received but never stored. -/
def ReceptiveFieldsDenseBlock.init (in_channels growth_channels : ℕ) (sc : ℚ) :
    ReceptiveFieldsDenseBlock :=
  { conv1 := Inception.init in_channels growth_channels 0.2 true
    conv2 := Inception.init (in_channels + 1 * growth_channels) growth_channels 0.2 true
    conv3 := Inception.init (in_channels + 2 * growth_channels) growth_channels 0.2 true
    conv4 := Inception.init (in_channels + 3 * growth_channels) growth_channels 0.2 true
    conv5 := Inception.init (in_channels + 4 * growth_channels) growth_channels 0.2 false
    scale_ratio := none }

/-- `ReceptiveFieldsDenseBlock.forward`. -/
def ReceptiveFieldsDenseBlock.forward (self : ReceptiveFieldsDenseBlock)
    (input : Shape4) : M Shape4 := do
  let conv1 ← self.conv1.forward input
  let c2in ← liftS (catShape [input, conv1])
  let conv2 ← self.conv2.forward c2in
  let c3in ← liftS (catShape [input, conv1, conv2])
  let conv3 ← self.conv3.forward c3in
  let c4in ← liftS (catShape [input, conv1, conv2, conv3])
  let conv4 ← self.conv4.forward c4in
  let c5in ← liftS (catShape [input, conv1, conv2, conv3, conv4])
  let conv5 ← self.conv5.forward c5in
  match self.scale_ratio with
  | none => Except.error MErr.missingAttribute
  | some _ => liftS (addShape (mulScalarShape conv5) input)

/-! ### class ResidualInResidualFieldsDenseBlock -/

/-- Module state of `ResidualInResidualFieldsDenseBlock`. -/
structure ResidualInResidualFieldsDenseBlock where
  RFDB1 : ReceptiveFieldsDenseBlock
  RFDB2 : ReceptiveFieldsDenseBlock
  RFDB3 : ReceptiveFieldsDenseBlock
  scale_ratio : Option ℚ
  deriving DecidableEq

/-- `ResidualInResidualFieldsDenseBlock.__init__`. -/
def ResidualInResidualFieldsDenseBlock.init (in_channels growth_channels : ℕ)
    (sc : ℚ) : ResidualInResidualFieldsDenseBlock :=
  { RFDB1 := ReceptiveFieldsDenseBlock.init in_channels growth_channels 0.2
    RFDB2 := ReceptiveFieldsDenseBlock.init in_channels growth_channels 0.2
    RFDB3 := ReceptiveFieldsDenseBlock.init in_channels growth_channels 0.2
    scale_ratio := some sc }

/-- `ResidualInResidualFieldsDenseBlock.forward`. -/
def ResidualInResidualFieldsDenseBlock.forward
    (self : ResidualInResidualFieldsDenseBlock) (input : Shape4) : M Shape4 := do
  let out ← self.RFDB1.forward input
  let out ← self.RFDB2.forward out
  let out ← self.RFDB3.forward out
  match self.scale_ratio with
  | none => Except.error MErr.missingAttribute
  | some _ => liftS (addShape (mulScalarShape out) input)

/-! ### class ResidualDenseBlock -/

/-- Module state of `ResidualDenseBlock`. -/
structure ResidualDenseBlock where
  conv1 : List SLayer
  conv2 : List SLayer
  conv3 : List SLayer
  conv4 : List SLayer
  conv5 : List SLayer
  scale_ratio : Option ℚ
  deriving DecidableEq

/-- `ResidualDenseBlock.__init__(in_channels, growth_channels, scale_ratio)`;
each `conv_i` is `nn.Sequential(nn.Conv2d(..., 3, 1, 1), nn.LeakyReLU)`. -/
def ResidualDenseBlock.init (in_channels growth_channels : ℕ) (sc : ℚ) :
    ResidualDenseBlock :=
  { conv1 := [.conv ⟨in_channels + 0 * growth_channels, growth_channels,
                3, 3, 1, 1, 1, 1, 1, 1⟩, .lrelu]
    conv2 := [.conv ⟨in_channels + 1 * growth_channels, growth_channels,
                3, 3, 1, 1, 1, 1, 1, 1⟩, .lrelu]
    conv3 := [.conv ⟨in_channels + 2 * growth_channels, growth_channels,
                3, 3, 1, 1, 1, 1, 1, 1⟩, .lrelu]
    conv4 := [.conv ⟨in_channels + 3 * growth_channels, growth_channels,
                3, 3, 1, 1, 1, 1, 1, 1⟩, .lrelu]
    conv5 := [.conv ⟨in_channels + 4 * growth_channels, in_channels,
                3, 3, 1, 1, 1, 1, 1, 1⟩, .lrelu]
    scale_ratio := some sc }

/-- `ResidualDenseBlock.forward`. -/
def ResidualDenseBlock.forward (self : ResidualDenseBlock) (input : Shape4) :
    M Shape4 := do
  let conv1 ← liftS (runSeq self.conv1 input)
  let c2in ← liftS (catShape [input, conv1])
  let conv2 ← liftS (runSeq self.conv2 c2in)
  let c3in ← liftS (catShape [input, conv1, conv2])
  let conv3 ← liftS (runSeq self.conv3 c3in)
  let c4in ← liftS (catShape [input, conv1, conv2, conv3])
  let conv4 ← liftS (runSeq self.conv4 c4in)
  let c5in ← liftS (catShape [input, conv1, conv2, conv3, conv4])
  let conv5 ← liftS (runSeq self.conv5 c5in)
  match self.scale_ratio with
  | none => Except.error MErr.missingAttribute
  | some _ => liftS (addShape (mulScalarShape conv5) input)

/-! ### class ResidualInResidualDenseBlock -/

/-- Module state of `ResidualInResidualDenseBlock`. -/
structure ResidualInResidualDenseBlock where
  RBD1 : ResidualDenseBlock
  RBD2 : ResidualDenseBlock
  RBD3 : ResidualDenseBlock
  scale_ratio : Option ℚ
  deriving DecidableEq

/-- `ResidualInResidualDenseBlock.__init__`. -/
def ResidualInResidualDenseBlock.init (in_channels growth_channels : ℕ) (sc : ℚ) :
    ResidualInResidualDenseBlock :=
  { RBD1 := ResidualDenseBlock.init in_channels growth_channels 0.2
    RBD2 := ResidualDenseBlock.init in_channels growth_channels 0.2
    RBD3 := ResidualDenseBlock.init in_channels growth_channels 0.2
    scale_ratio := some sc }

/-- `ResidualInResidualDenseBlock.forward`. -/
def ResidualInResidualDenseBlock.forward (self : ResidualInResidualDenseBlock)
    (input : Shape4) : M Shape4 := do
  let out ← self.RBD1.forward input
  let out ← self.RBD2.forward out
  let out ← self.RBD3.forward out
  match self.scale_ratio with
  | none => Except.error MErr.missingAttribute
  | some _ => liftS (addShape (mulScalarShape out) input)

/-! ### class Generator -/

/-- A layer of the generator's upsampling `nn.Sequential`, which mixes plain
layers with `Inception` sub-modules. -/
inductive UpLayer where
  | upsample2
  | inception (m : Inception)
  | conv (cfg : Conv2dCfg)
  | lrelu
  | pixelShuffle2
  deriving DecidableEq

/-- Shape action of one upsampling layer. -/
def UpLayer.apply : UpLayer → Shape4 → M Shape4
  | .upsample2, s => Except.ok (upsample2Shape s)
  | .inception m, s => m.forward s
  | .conv cfg, s => liftS (conv2dShape cfg s)
  | .lrelu, s => Except.ok (lreluShape s)
  | .pixelShuffle2, s => liftS (pixelShuffle2Shape s)

/-- Shape action of the upsampling `nn.Sequential`. -/
def runUp : List UpLayer → Shape4 → M Shape4
  | [], s => Except.ok s
  | l :: ls, s => l.apply s >>= runUp ls

@[simp] theorem runUp_nil (s : Shape4) : runUp [] s = Except.ok s := rfl

@[simp] theorem runUp_cons (l : UpLayer) (ls : List UpLayer) (s : Shape4) :
    runUp (l :: ls) s = l.apply s >>= runUp ls := rfl

/-- Sequential application of a list of sub-modules (an `nn.Sequential` of
blocks), given the forward function of one block. -/
def runBlocks {α : Type} (f : α → Shape4 → M Shape4) :
    List α → Shape4 → M Shape4
  | [], s => Except.ok s
  | b :: bs, s => f b s >>= runBlocks f bs

@[simp] theorem runBlocks_nil {α : Type} (f : α → Shape4 → M Shape4) (s : Shape4) :
    runBlocks f [] s = Except.ok s := rfl

@[simp] theorem runBlocks_cons {α : Type} (f : α → Shape4 → M Shape4) (b : α)
    (bs : List α) (s : Shape4) :
    runBlocks f (b :: bs) s = f b s >>= runBlocks f bs := rfl

/-- One iteration of the upsampling construction loop in
`Generator.__init__`. -/
def upsampleStage : List UpLayer :=
  [.upsample2,
   .inception (Inception.init 64 64 0.2 true),
   .conv ⟨64, 256, 3, 3, 1, 1, 1, 1, 1, 1⟩,
   .lrelu,
   .pixelShuffle2,
   .inception (Inception.init 64 64 0.2 true)]

/-- Module state of `Generator` as built by `Generator.__init__`. -/
structure Generator where
  conv1 : Conv2dCfg
  residual_residual_dense_blocks : List ResidualInResidualDenseBlock
  residual_residual_fields_dense_blocks : List ResidualInResidualFieldsDenseBlock
  conv2 : Inception
  upsampling : List UpLayer
  conv3 : List SLayer
  deriving DecidableEq

/-- `Generator.__init__(upscale_factor)`.  The source computes
`upsample_block_num = int(math.log(upscale_factor, 2))`, which for a positive
integer factor is the floor of the base-2 logarithm; it is modelled as
`Nat.log 2 upscale_factor`. -/
def Generator.init (upscale_factor : ℕ) : Generator :=
  let upsample_block_num := Nat.log 2 upscale_factor
  { conv1 := ⟨3, 64, 3, 3, 1, 1, 1, 1, 1, 1⟩
    residual_residual_dense_blocks :=
      List.replicate 16 (ResidualInResidualDenseBlock.init 64 32 0.2)
    residual_residual_fields_dense_blocks :=
      List.replicate 8 (ResidualInResidualFieldsDenseBlock.init 64 32 0.2)
    conv2 := Inception.init 64 64 0.2 false
    upsampling := (List.replicate upsample_block_num upsampleStage).flatten
    conv3 := [.conv ⟨64, 64, 3, 3, 1, 1, 1, 1, 1, 1⟩, .lrelu,
              .conv ⟨64, 3, 3, 3, 1, 1, 1, 1, 1, 1⟩] }

/-- `Generator.forward`. -/
def Generator.forward (self : Generator) (input : Shape4) : M Shape4 := do
  let out1 ← liftS (conv2dShape self.conv1 input)
  let out2 ← runBlocks ResidualInResidualDenseBlock.forward
    self.residual_residual_dense_blocks out1
  let out2 ← runBlocks ResidualInResidualFieldsDenseBlock.forward
    self.residual_residual_fields_dense_blocks out2
  let out ← liftS (addShape out1 out2)
  let out ← self.conv2.forward out
  let out ← runUp self.upsampling out
  let out ← liftS (runSeq self.conv3 out)
  return out

/-! ### class Discriminator -/

/-- Module state of `Discriminator` as built by `Discriminator.__init__`. -/
structure Discriminator where
  features : List SLayer
  avgpool : ℕ × ℕ
  classifier : List CLayer
  deriving DecidableEq

/-- `Discriminator.__init__()`. -/
def Discriminator.init : Discriminator :=
  { features :=
      [ -- Conv0
       .conv ⟨3, 64, 3, 3, 1, 1, 1, 1, 1, 1⟩, .lrelu,
       .conv ⟨64, 64, 4, 4, 2, 2, 1, 1, 1, 1⟩, .bn 64, .lrelu,
       -- Conv1
       .conv ⟨64, 128, 3, 3, 1, 1, 1, 1, 1, 1⟩, .bn 128, .lrelu,
       .conv ⟨128, 128, 4, 4, 2, 2, 1, 1, 1, 1⟩, .bn 128, .lrelu,
       -- Conv2
       .conv ⟨128, 256, 3, 3, 1, 1, 1, 1, 1, 1⟩, .bn 256, .lrelu,
       .conv ⟨256, 256, 4, 4, 2, 2, 1, 1, 1, 1⟩, .bn 256, .lrelu,
       -- Conv3
       .conv ⟨256, 512, 3, 3, 1, 1, 1, 1, 1, 1⟩, .bn 512, .lrelu,
       .conv ⟨512, 512, 4, 4, 2, 2, 1, 1, 1, 1⟩, .bn 512, .lrelu,
       -- Conv4
       .conv ⟨512, 512, 3, 3, 1, 1, 1, 1, 1, 1⟩, .bn 512, .lrelu,
       .conv ⟨512, 512, 4, 4, 2, 2, 1, 1, 1, 1⟩, .bn 512, .lrelu]
    avgpool := (7, 7)
    classifier :=
      [.linear (512 * 7 * 7) 100, .lrelu, .linear 100 1] }

/-- `Discriminator.forward(input=None)`: the parameter defaults to `None`
(modelled as `none`); a `None` input reaches the first convolution, which
rejects a non-tensor argument. -/
def Discriminator.forward (self : Discriminator) (input : Option Shape4 := none) :
    M Shape2 :=
  match input with
  | none => Except.error MErr.notATensor
  | some s => do
    let out ← liftS (runSeq self.features s)
    let out ← liftS (adaptiveAvgPool7Shape out)
    let out := flatten1 out
    let out ← liftS (runCSeq self.classifier out)
    return out

/-! ## Helper lemmas -/

@[simp] theorem catShape_cons (x : Shape4) (rest : List Shape4) :
    catShape (x :: rest) =
      if ∀ y ∈ rest, y.n = x.n ∧ y.h = x.h ∧ y.w = x.w then
        some ⟨x.n, x.c + (rest.map Shape4.c).sum, x.h, x.w⟩
      else none := rfl

/-- A 1x1, stride-1, padding-0 convolution on a matching input fails when a
spatial extent is zero. -/
theorem conv2dShape_k1_none (ci co n h w : ℕ) (hne : ¬(1 ≤ h ∧ 1 ≤ w)) :
    conv2dShape ⟨ci, co, 1, 1, 1, 1, 0, 0, 1, 1⟩ ⟨n, ci, h, w⟩ = none := by
  unfold conv2dShape
  rw [if_pos rfl]
  simp only [convOutDim_k1p0]
  by_cases hh : 1 ≤ h
  · have hw : ¬1 ≤ w := fun hw => hne ⟨hh, hw⟩
    rw [if_pos hh, if_neg hw]
  · rw [if_neg hh]

/-- A channel concatenation whose second operand disagrees with the first on
height fails. -/
theorem catShape_second_h_ne (a b : Shape4) (l : List Shape4) (hne : b.h ≠ a.h) :
    catShape (a :: b :: l) = none := by
  rw [catShape_cons, if_neg]
  intro hall
  exact hne (hall b (by simp)).2.1

/-- Every forward pass of an `Inception` module as built by its constructor
fails with a shape mismatch, for every input shape: branch1's second
convolution is 1x1 with padding 1, so branch1's spatial extents are (h+2, w+2)
while branch2's are (h, w), and the channel concatenation rejects them; when
`channels // 2 ≠ channels // 4` the forward already fails inside branch4,
whose first convolution emits `channels // 2` channels while its second
declares `channels // 4` input channels. -/
theorem inception_init_forward_err (ic oc : ℕ) (sc : ℚ) (nl : Bool) (s : Shape4) :
    (Inception.init ic oc sc nl).forward s = Except.error MErr.shapeMismatch := by
  obtain ⟨n, c, h, w⟩ := s
  by_cases hc : c = ic
  · subst hc
    by_cases hhw : 1 ≤ h ∧ 1 ≤ w
    · obtain ⟨hh, hw⟩ := hhw
      by_cases h4 : c / 4 / 2 = c / 4 / 4
      · simp only [Inception.forward, Inception.init, h4, runSeq_cons, runSeq_nil,
          SLayer.apply, conv2dShape_k1 _ _ _ _ _ hh hw, conv2dShape_k1p1,
          conv2dShape_k13 _ _ _ _ _ hh hw, conv2dShape_k31 _ _ _ _ _ hh hw,
          conv2dShape_k3d3 _ _ _ _ _ hh hw, conv2dShape_k3d5 _ _ _ _ _ hh hw,
          Option.some_bind, liftS_some, ok_bind]
        rw [catShape_second_h_ne _ _ _ (by simp)]
        rfl
      · have hb4 : conv2dShape ⟨c / 4 / 4, c / 4 / 4 * 3, 1, 3, 1, 1, 0, 1, 1, 1⟩
            ⟨n, c / 4 / 2, h, w⟩ = none := conv2dShape_mismatch _ _ h4
        simp only [Inception.forward, Inception.init, runSeq_cons, runSeq_nil,
          SLayer.apply, conv2dShape_k1 _ _ _ _ _ hh hw, conv2dShape_k1p1,
          conv2dShape_k13 _ _ _ _ _ hh hw, conv2dShape_k31 _ _ _ _ _ hh hw,
          conv2dShape_k3d3 _ _ _ _ _ hh hw, conv2dShape_k3d5 _ _ _ _ _ hh hw,
          hb4, Option.some_bind, Option.none_bind, liftS_some, liftS_none,
          ok_bind, error_bind]
    · have hsc : conv2dShape ⟨c, oc, 1, 1, 1, 1, 0, 0, 1, 1⟩ ⟨n, c, h, w⟩ = none :=
        conv2dShape_k1_none c oc n h w hhw
      simp only [Inception.forward, Inception.init, hsc, liftS_none, error_bind]
  · have hsc : conv2dShape ⟨ic, oc, 1, 1, 1, 1, 0, 0, 1, 1⟩ ⟨n, c, h, w⟩ = none :=
      conv2dShape_mismatch _ _ hc
    simp only [Inception.forward, Inception.init, hsc, liftS_none, error_bind]

/-- Every forward pass of a constructor-built `ReceptiveFieldsDenseBlock`
fails with a shape mismatch already in its first `Inception` layer — in
particular the unassigned `scale_ratio` attribute is never reached. -/
theorem rfdb_init_forward_err (ic gc : ℕ) (sc : ℚ) (s : Shape4) :
    (ReceptiveFieldsDenseBlock.init ic gc sc).forward s =
      Except.error MErr.shapeMismatch := by
  simp only [ReceptiveFieldsDenseBlock.forward, ReceptiveFieldsDenseBlock.init]
  rw [inception_init_forward_err]
  rfl

/-- Every forward pass of a constructor-built
`ResidualInResidualFieldsDenseBlock` fails with a shape mismatch. -/
theorem rrfdb_init_forward_err (ic gc : ℕ) (sc : ℚ) (s : Shape4) :
    (ResidualInResidualFieldsDenseBlock.init ic gc sc).forward s =
      Except.error MErr.shapeMismatch := by
  simp only [ResidualInResidualFieldsDenseBlock.forward,
    ResidualInResidualFieldsDenseBlock.init]
  rw [rfdb_init_forward_err]
  rfl

/-- Predicate: a forward-pass result is either a value or a shape-mismatch
error — never an AttributeError or TypeError. -/
def onlyShapeErrors {α : Type} : M α → Prop
  | .ok _ => True
  | .error .shapeMismatch => True
  | .error _ => False

theorem onlyShapeErrors_liftS {α : Type} (o : Option α) :
    onlyShapeErrors (liftS o) := by
  cases o <;> trivial

theorem onlyShapeErrors_ok {α : Type} (a : α) :
    onlyShapeErrors (Except.ok a : M α) := trivial

theorem onlyShapeErrors_bind {α β : Type} (ma : M α) (f : α → M β)
    (h1 : onlyShapeErrors ma) (h2 : ∀ a, onlyShapeErrors (f a)) :
    onlyShapeErrors (ma >>= f) := by
  cases ma with
  | ok a => exact h2 a
  | error e =>
    rw [error_bind]
    cases e
    · trivial
    · exact absurd h1 (by simp [onlyShapeErrors])
    · exact absurd h1 (by simp [onlyShapeErrors])

theorem onlyShapeErrors_error {α : Type} {e : MErr}
    (h : onlyShapeErrors (Except.error e : M α)) : e = MErr.shapeMismatch := by
  cases e
  · rfl
  · exact absurd h (by simp [onlyShapeErrors])
  · exact absurd h (by simp [onlyShapeErrors])

/-- A constructor-built `ResidualDenseBlock` forward pass can only fail with a
shape mismatch (its `scale_ratio` attribute is assigned). -/
theorem rdb_init_forward_only (ic gc : ℕ) (sc : ℚ) (s : Shape4) :
    onlyShapeErrors ((ResidualDenseBlock.init ic gc sc).forward s) := by
  simp only [ResidualDenseBlock.forward, ResidualDenseBlock.init]
  refine onlyShapeErrors_bind _ _ (onlyShapeErrors_liftS _) fun _ => ?_
  refine onlyShapeErrors_bind _ _ (onlyShapeErrors_liftS _) fun _ => ?_
  refine onlyShapeErrors_bind _ _ (onlyShapeErrors_liftS _) fun _ => ?_
  refine onlyShapeErrors_bind _ _ (onlyShapeErrors_liftS _) fun _ => ?_
  refine onlyShapeErrors_bind _ _ (onlyShapeErrors_liftS _) fun _ => ?_
  refine onlyShapeErrors_bind _ _ (onlyShapeErrors_liftS _) fun _ => ?_
  refine onlyShapeErrors_bind _ _ (onlyShapeErrors_liftS _) fun _ => ?_
  refine onlyShapeErrors_bind _ _ (onlyShapeErrors_liftS _) fun _ => ?_
  refine onlyShapeErrors_bind _ _ (onlyShapeErrors_liftS _) fun _ => ?_
  exact onlyShapeErrors_liftS _

/-- A constructor-built `ResidualInResidualDenseBlock` forward pass can only
fail with a shape mismatch. -/
theorem rrdb_init_forward_only (ic gc : ℕ) (sc : ℚ) (s : Shape4) :
    onlyShapeErrors ((ResidualInResidualDenseBlock.init ic gc sc).forward s) := by
  simp only [ResidualInResidualDenseBlock.forward, ResidualInResidualDenseBlock.init]
  refine onlyShapeErrors_bind _ _ (rdb_init_forward_only _ _ _ _) fun _ => ?_
  refine onlyShapeErrors_bind _ _ (rdb_init_forward_only _ _ _ _) fun _ => ?_
  refine onlyShapeErrors_bind _ _ (rdb_init_forward_only _ _ _ _) fun _ => ?_
  exact onlyShapeErrors_liftS _

/-- Sequentially applied blocks preserve `onlyShapeErrors`. -/
theorem runBlocks_only {α : Type} (f : α → Shape4 → M Shape4) (bs : List α)
    (h : ∀ b ∈ bs, ∀ s, onlyShapeErrors (f b s)) :
    ∀ s, onlyShapeErrors (runBlocks f bs s) := by
  induction bs with
  | nil => intro s; exact onlyShapeErrors_ok s
  | cons b bs ih =>
    intro s
    refine onlyShapeErrors_bind _ _ (h b (by simp) s) fun a => ?_
    exact ih (fun b' hb' s' => h b' (by simp [hb']) s') a

/-- If the first of `k > 0` identical blocks fails, the whole sequence fails
with the same error. -/
theorem runBlocks_replicate_err {α : Type} (f : α → Shape4 → M Shape4) (b : α)
    (k : ℕ) (hk : 0 < k) (s : Shape4) (e : MErr) (he : f b s = Except.error e) :
    runBlocks f (List.replicate k b) s = Except.error e := by
  cases k with
  | zero => exact absurd hk (lt_irrefl 0)
  | succ k => rw [List.replicate_succ, runBlocks_cons, he, error_bind]

/-- Every forward pass of a constructor-built `Generator` fails with a shape
mismatch: the eight `ResidualInResidualFieldsDenseBlock`s (and every later
`Inception`) reject every input. -/
theorem generator_init_forward_err (uf : ℕ) (s : Shape4) :
    (Generator.init uf).forward s = Except.error MErr.shapeMismatch := by
  cases hco : conv2dShape ⟨3, 64, 3, 3, 1, 1, 1, 1, 1, 1⟩ s with
  | none =>
    simp only [Generator.forward, Generator.init, hco, liftS_none, error_bind]
  | some o1 =>
    have h16 : onlyShapeErrors (runBlocks ResidualInResidualDenseBlock.forward
        (List.replicate 16 (ResidualInResidualDenseBlock.init 64 32 0.2)) o1) :=
      runBlocks_only _ _
        (fun b hb s' => by
          rw [List.eq_of_mem_replicate hb]
          exact rrdb_init_forward_only 64 32 0.2 s') o1
    cases hr : runBlocks ResidualInResidualDenseBlock.forward
        (List.replicate 16 (ResidualInResidualDenseBlock.init 64 32 0.2)) o1 with
    | error e =>
      have he : e = MErr.shapeMismatch := onlyShapeErrors_error (hr ▸ h16)
      subst he
      simp only [Generator.forward, Generator.init, hco, liftS_some, ok_bind, hr,
        error_bind]
    | ok o2 =>
      simp only [Generator.forward, Generator.init, hco, liftS_some, ok_bind, hr,
        runBlocks_replicate_err _ _ 8 (by norm_num) o2 _
          (rrfdb_init_forward_err 64 32 0.2 o2),
        error_bind]

/-- A discriminator forward pass on a tensor argument can only fail with a
shape mismatch. -/
theorem disc_forward_some_only (s : Shape4) :
    onlyShapeErrors (Discriminator.init.forward (some s)) := by
  simp only [Discriminator.forward, Discriminator.init]
  refine onlyShapeErrors_bind _ _ (onlyShapeErrors_liftS _) fun _ => ?_
  refine onlyShapeErrors_bind _ _ (onlyShapeErrors_liftS _) fun _ => ?_
  refine onlyShapeErrors_bind _ _ (onlyShapeErrors_liftS _) fun _ => ?_
  exact onlyShapeErrors_ok _

/-- Identical blocks that each map `s` to `s` do so in sequence. -/
theorem runBlocks_replicate_ok {α : Type} (f : α → Shape4 → M Shape4) (b : α)
    (k : ℕ) (s : Shape4) (hb : f b s = Except.ok s) :
    runBlocks f (List.replicate k b) s = Except.ok s := by
  induction k with
  | zero => rfl
  | succ k ih => rw [List.replicate_succ, runBlocks_cons, hb, ok_bind]; exact ih

/-- A `ResidualDenseBlock(64, 32)` forward pass preserves the shape of a
(n, 64, h, w) input with non-empty spatial extents. -/
theorem rdb_init_forward_ok (sc : ℚ) (n h w : ℕ) (hh : 1 ≤ h) (hw : 1 ≤ w) :
    (ResidualDenseBlock.init 64 32 sc).forward ⟨n, 64, h, w⟩ =
      Except.ok ⟨n, 64, h, w⟩ := by
  simp [ResidualDenseBlock.forward, ResidualDenseBlock.init, runSeq_cons,
    runSeq_nil, SLayer.apply, lreluShape, conv2dShape_k3 _ _ _ _ _ hh hw,
    catShape_cons, addShape, broadcastDim, mulScalarShape]

/-- A `ResidualInResidualDenseBlock(64, 32)` forward pass preserves the shape
of a (n, 64, h, w) input with non-empty spatial extents. -/
theorem rrdb_init_forward_ok (sc : ℚ) (n h w : ℕ) (hh : 1 ≤ h) (hw : 1 ≤ w) :
    (ResidualInResidualDenseBlock.init 64 32 sc).forward ⟨n, 64, h, w⟩ =
      Except.ok ⟨n, 64, h, w⟩ := by
  simp [ResidualInResidualDenseBlock.forward, ResidualInResidualDenseBlock.init,
    rdb_init_forward_ok _ _ _ _ hh hw, addShape, broadcastDim, mulScalarShape]


theorem batchNorm2dShape_same (c n h w : ℕ) :
    batchNorm2dShape c ⟨n, c, h, w⟩ = some ⟨n, c, h, w⟩ := by
  unfold batchNorm2dShape
  rw [if_pos rfl]

/-- The discriminator feature stack halves each spatial extent five times and
ends at 512 channels, for any (nb, 3, h, w) input with h, w ≥ 32. -/
theorem disc_feat_full (nb h w : ℕ) (hh : 32 ≤ h) (hw : 32 ≤ w) :
    runSeq Discriminator.init.features ⟨nb, 3, h, w⟩ =
      some ⟨nb, 512, h / 2 / 2 / 2 / 2 / 2, w / 2 / 2 / 2 / 2 / 2⟩ := by
  have p0h : 1 ≤ h := by omega
  have p0w : 1 ≤ w := by omega
  have q0h : 2 ≤ h := by omega
  have q0w : 2 ≤ w := by omega
  have p1h : 1 ≤ h / 2 := by omega
  have p1w : 1 ≤ w / 2 := by omega
  have q1h : 2 ≤ h / 2 := by omega
  have q1w : 2 ≤ w / 2 := by omega
  have p2h : 1 ≤ h / 2 / 2 := by omega
  have p2w : 1 ≤ w / 2 / 2 := by omega
  have q2h : 2 ≤ h / 2 / 2 := by omega
  have q2w : 2 ≤ w / 2 / 2 := by omega
  have p3h : 1 ≤ h / 2 / 2 / 2 := by omega
  have p3w : 1 ≤ w / 2 / 2 / 2 := by omega
  have q3h : 2 ≤ h / 2 / 2 / 2 := by omega
  have q3w : 2 ≤ w / 2 / 2 / 2 := by omega
  have p4h : 1 ≤ h / 2 / 2 / 2 / 2 := by omega
  have p4w : 1 ≤ w / 2 / 2 / 2 / 2 := by omega
  have q4h : 2 ≤ h / 2 / 2 / 2 / 2 := by omega
  have q4w : 2 ≤ w / 2 / 2 / 2 / 2 := by omega
  simp only [Discriminator.init]
  rw [runSeq_cons]
  simp only [SLayer.apply]
  rw [conv2dShape_k3 _ _ _ _ _ p0h p0w, Option.some_bind]
  rw [runSeq_cons]
  simp only [SLayer.apply, lreluShape]
  rw [Option.some_bind]
  rw [runSeq_cons]
  simp only [SLayer.apply]
  rw [conv2dShape_k4s2 _ _ _ _ _ q0h q0w, Option.some_bind]
  rw [runSeq_cons]
  simp only [SLayer.apply]
  rw [batchNorm2dShape_same, Option.some_bind]
  rw [runSeq_cons]
  simp only [SLayer.apply, lreluShape]
  rw [Option.some_bind]
  rw [runSeq_cons]
  simp only [SLayer.apply]
  rw [conv2dShape_k3 _ _ _ _ _ p1h p1w, Option.some_bind]
  rw [runSeq_cons]
  simp only [SLayer.apply]
  rw [batchNorm2dShape_same, Option.some_bind]
  rw [runSeq_cons]
  simp only [SLayer.apply, lreluShape]
  rw [Option.some_bind]
  rw [runSeq_cons]
  simp only [SLayer.apply]
  rw [conv2dShape_k4s2 _ _ _ _ _ q1h q1w, Option.some_bind]
  rw [runSeq_cons]
  simp only [SLayer.apply]
  rw [batchNorm2dShape_same, Option.some_bind]
  rw [runSeq_cons]
  simp only [SLayer.apply, lreluShape]
  rw [Option.some_bind]
  rw [runSeq_cons]
  simp only [SLayer.apply]
  rw [conv2dShape_k3 _ _ _ _ _ p2h p2w, Option.some_bind]
  rw [runSeq_cons]
  simp only [SLayer.apply]
  rw [batchNorm2dShape_same, Option.some_bind]
  rw [runSeq_cons]
  simp only [SLayer.apply, lreluShape]
  rw [Option.some_bind]
  rw [runSeq_cons]
  simp only [SLayer.apply]
  rw [conv2dShape_k4s2 _ _ _ _ _ q2h q2w, Option.some_bind]
  rw [runSeq_cons]
  simp only [SLayer.apply]
  rw [batchNorm2dShape_same, Option.some_bind]
  rw [runSeq_cons]
  simp only [SLayer.apply, lreluShape]
  rw [Option.some_bind]
  rw [runSeq_cons]
  simp only [SLayer.apply]
  rw [conv2dShape_k3 _ _ _ _ _ p3h p3w, Option.some_bind]
  rw [runSeq_cons]
  simp only [SLayer.apply]
  rw [batchNorm2dShape_same, Option.some_bind]
  rw [runSeq_cons]
  simp only [SLayer.apply, lreluShape]
  rw [Option.some_bind]
  rw [runSeq_cons]
  simp only [SLayer.apply]
  rw [conv2dShape_k4s2 _ _ _ _ _ q3h q3w, Option.some_bind]
  rw [runSeq_cons]
  simp only [SLayer.apply]
  rw [batchNorm2dShape_same, Option.some_bind]
  rw [runSeq_cons]
  simp only [SLayer.apply, lreluShape]
  rw [Option.some_bind]
  rw [runSeq_cons]
  simp only [SLayer.apply]
  rw [conv2dShape_k3 _ _ _ _ _ p4h p4w, Option.some_bind]
  rw [runSeq_cons]
  simp only [SLayer.apply]
  rw [batchNorm2dShape_same, Option.some_bind]
  rw [runSeq_cons]
  simp only [SLayer.apply, lreluShape]
  rw [Option.some_bind]
  rw [runSeq_cons]
  simp only [SLayer.apply]
  rw [conv2dShape_k4s2 _ _ _ _ _ q4h q4w, Option.some_bind]
  rw [runSeq_cons]
  simp only [SLayer.apply]
  rw [batchNorm2dShape_same, Option.some_bind]
  rw [runSeq_cons]
  simp only [SLayer.apply, lreluShape]
  rw [Option.some_bind]
  rw [runSeq_nil]

theorem linearShape_same (inF outF n : ℕ) :
    linearShape inF outF ⟨n, inF⟩ = some ⟨n, outF⟩ := by
  unfold linearShape
  rw [if_pos rfl]

theorem adaptiveAvgPool7Shape_pos (n c h w : ℕ) (hh : 1 ≤ h) (hw : 1 ≤ w) :
    adaptiveAvgPool7Shape ⟨n, c, h, w⟩ = some ⟨n, c, 7, 7⟩ := by
  unfold adaptiveAvgPool7Shape
  rw [if_pos ⟨hh, hw⟩]

/-- The discriminator maps a (nb, 3, h, w) input with h, w ≥ 32 to a
(nb, 1) score tensor. -/
theorem disc_init_forward_ok (nb h w : ℕ) (hh : 32 ≤ h) (hw : 32 ≤ w) :
    Discriminator.init.forward (some ⟨nb, 3, h, w⟩) = Except.ok ⟨nb, 1⟩ := by
  have hf := disc_feat_full nb h w hh hw
  have p5h : 1 ≤ h / 2 / 2 / 2 / 2 / 2 := by omega
  have p5w : 1 ≤ w / 2 / 2 / 2 / 2 / 2 := by omega
  simp only [Discriminator.forward]
  rw [hf, liftS_some, ok_bind]
  rw [adaptiveAvgPool7Shape_pos _ _ _ _ p5h p5w, liftS_some, ok_bind]
  simp only [flatten1, Discriminator.init]
  rw [runCSeq_cons]
  simp only [CLayer.apply]
  rw [linearShape_same, Option.some_bind]
  rw [runCSeq_cons]
  simp only [CLayer.apply]
  rw [Option.some_bind]
  rw [runCSeq_cons]
  simp only [CLayer.apply]
  rw [linearShape_same, Option.some_bind]
  rw [runCSeq_nil, liftS_some, ok_bind]
  rfl

/-! ## Value-level semantics

Tensors carry rational-valued data; each layer computes the arithmetic of the
source.  Used to state determinism of the generator forward pass. -/

namespace Val

/-- A 4-d tensor: shape plus an indexing function (batch, channel, row,
column). -/
structure Tensor where
  n : ℕ
  c : ℕ
  h : ℕ
  w : ℕ
  data : ℕ → ℕ → ℕ → ℕ → ℚ

/-- Weights of one convolution: indexed by (out channel, in channel, kernel
row, kernel column). -/
def Weight : Type := ℕ → ℕ → ℕ → ℕ → ℚ

/-- Read a tensor entry with zero padding outside the spatial extent. -/
def padGet (t : Tensor) (b c : ℕ) (i j : ℤ) : ℚ :=
  if 0 ≤ i ∧ i < (t.h : ℤ) ∧ 0 ≤ j ∧ j < (t.w : ℤ) then
    t.data b c i.toNat j.toNat
  else 0

/-- Value semantics of `nn.Conv2d` (bias=False throughout the source): a
triple sum over input channels and kernel offsets, with zero padding. -/
def conv2dV (cfg : Conv2dCfg) (wt : Weight) (x : Tensor) : Option Tensor :=
  if x.c = cfg.inC then
    match convOutDim x.h cfg.kh cfg.sh cfg.ph cfg.dh,
          convOutDim x.w cfg.kw cfg.sw cfg.pw cfg.dw with
    | some oh, some ow =>
      some { n := x.n, c := cfg.outC, h := oh, w := ow,
             data := fun b co i j =>
               (Finset.range cfg.inC).sum fun ci =>
                 (Finset.range cfg.kh).sum fun ki =>
                   (Finset.range cfg.kw).sum fun kj =>
                     wt co ci ki kj *
                       padGet x b ci
                         (((i * cfg.sh + ki * cfg.dh : ℕ) : ℤ) - (cfg.ph : ℤ))
                         (((j * cfg.sw + kj * cfg.dw : ℕ) : ℤ) - (cfg.pw : ℤ)) }
    | _, _ => none
  else none

/-- Value semantics of `nn.LeakyReLU(negative_slope)`. -/
def leakyReluV (slope : ℚ) (t : Tensor) : Tensor :=
  { t with data := fun b c i j =>
      if 0 ≤ t.data b c i j then t.data b c i j else slope * t.data b c i j }

/-- Value semantics of `nn.ReLU`. -/
def reluV (t : Tensor) : Tensor :=
  { t with data := fun b c i j => max (t.data b c i j) 0 }

/-- Concatenation of two tensors along the channel dimension. -/
def cat2V (a b : Tensor) : Option Tensor :=
  if a.n = b.n ∧ a.h = b.h ∧ a.w = b.w then
    some { n := a.n, c := a.c + b.c, h := a.h, w := a.w,
           data := fun bn c i j =>
             if c < a.c then a.data bn c i j else b.data bn (c - a.c) i j }
  else none

/-- Value semantics of `torch.cat(xs, dim=1)`. -/
def catV : List Tensor → Option Tensor
  | [] => none
  | x :: rest => rest.foldlM cat2V x

/-- Multiplication of a tensor by a python scalar. -/
def mulScalarV (t : Tensor) (r : ℚ) : Tensor :=
  { t with data := fun b c i j => t.data b c i j * r }

/-- Index adjustment for a broadcast dimension of extent `d`. -/
def bIdx (d i : ℕ) : ℕ := if d = 1 then 0 else i

/-- Value semantics of elementwise tensor addition with broadcasting. -/
def addV (a b : Tensor) : Option Tensor := do
  let n ← broadcastDim a.n b.n
  let c ← broadcastDim a.c b.c
  let h ← broadcastDim a.h b.h
  let w ← broadcastDim a.w b.w
  some { n := n, c := c, h := h, w := w,
         data := fun bn ch i j =>
           a.data (bIdx a.n bn) (bIdx a.c ch) (bIdx a.h i) (bIdx a.w j) +
           b.data (bIdx b.n bn) (bIdx b.c ch) (bIdx b.h i) (bIdx b.w j) }

/-- Value semantics of `nn.Upsample(scale_factor=2, mode="nearest")`. -/
def upsample2V (t : Tensor) : Tensor :=
  { n := t.n, c := t.c, h := 2 * t.h, w := 2 * t.w,
    data := fun b c i j => t.data b c (i / 2) (j / 2) }

/-- Value semantics of `nn.PixelShuffle(upscale_factor=2)`. -/
def pixelShuffle2V (t : Tensor) : Option Tensor :=
  if t.c % 4 = 0 then
    some { n := t.n, c := t.c / 4, h := 2 * t.h, w := 2 * t.w,
           data := fun b c i j => t.data b (c * 4 + i % 2 * 2 + j % 2) (i / 2) (j / 2) }
  else none

/-- Parameters of an `Inception` module: one weight per convolution, plus the
attributes of the shape-level model. -/
structure Inception where
  in_channels : ℕ
  out_channels : ℕ
  shortcutW : Weight
  b1aW : Weight
  b1bW : Weight
  b2aW : Weight
  b2bW : Weight
  b2cW : Weight
  b3aW : Weight
  b3bW : Weight
  b3cW : Weight
  b4aW : Weight
  b4bW : Weight
  b4cW : Weight
  b4dW : Weight
  conv1x1W : Weight
  lrelu : Option Unit
  scale_ratio : Option ℚ

/-- Value semantics of `Inception.forward`, with
`channels = in_channels // 4`. -/
def Inception.forward (self : Inception) (input : Tensor) : M Tensor :=
  let ic := self.in_channels
  let channels := ic / 4
  do
  let shortcut ← liftS (conv2dV ⟨ic, self.out_channels, 1, 1, 1, 1, 0, 0, 1, 1⟩
    self.shortcutW input)
  let b1 ← liftS (conv2dV ⟨ic, channels, 1, 1, 1, 1, 0, 0, 1, 1⟩ self.b1aW input)
  let b1 := reluV b1
  let b1 ← liftS (conv2dV ⟨channels, channels, 1, 1, 1, 1, 1, 1, 1, 1⟩ self.b1bW b1)
  let b2 ← liftS (conv2dV ⟨ic, channels, 1, 1, 1, 1, 0, 0, 1, 1⟩ self.b2aW input)
  let b2 := reluV b2
  let b2 ← liftS (conv2dV ⟨channels, channels, 1, 3, 1, 1, 0, 1, 1, 1⟩ self.b2bW b2)
  let b2 := reluV b2
  let b2 ← liftS (conv2dV ⟨channels, channels, 3, 3, 1, 1, 3, 3, 3, 3⟩ self.b2cW b2)
  let b3 ← liftS (conv2dV ⟨ic, channels, 1, 1, 1, 1, 0, 0, 1, 1⟩ self.b3aW input)
  let b3 := reluV b3
  let b3 ← liftS (conv2dV ⟨channels, channels, 3, 1, 1, 1, 1, 0, 1, 1⟩ self.b3bW b3)
  let b3 := reluV b3
  let b3 ← liftS (conv2dV ⟨channels, channels, 3, 3, 1, 1, 3, 3, 3, 3⟩ self.b3cW b3)
  let b4 ← liftS (conv2dV ⟨ic, channels / 2, 1, 1, 1, 1, 0, 0, 1, 1⟩ self.b4aW input)
  let b4 := reluV b4
  let b4 ← liftS (conv2dV ⟨channels / 4, channels / 4 * 3, 1, 3, 1, 1, 0, 1, 1, 1⟩
    self.b4bW b4)
  let b4 := reluV b4
  let b4 ← liftS (conv2dV ⟨channels / 4 * 3, channels, 1, 3, 1, 1, 0, 1, 1, 1⟩
    self.b4cW b4)
  let b4 := reluV b4
  let b4 ← liftS (conv2dV ⟨channels, channels, 3, 3, 1, 1, 5, 5, 5, 5⟩ self.b4dW b4)
  let out ← liftS (catV [b1, b2, b3, b4])
  let out ← liftS (conv2dV ⟨ic, self.out_channels, 1, 1, 1, 1, 0, 0, 1, 1⟩
    self.conv1x1W out)
  match self.scale_ratio with
  | none => Except.error MErr.missingAttribute
  | some r => do
    let out ← liftS (addV (mulScalarV shortcut r) out)
    match self.lrelu with
    | some _ => Except.ok (leakyReluV 0.2 out)
    | none => Except.ok out

/-- Parameters of a `ReceptiveFieldsDenseBlock`: its five `Inception`
sub-modules and the (never assigned) `scale_ratio` attribute slot. -/
structure ReceptiveFieldsDenseBlock where
  conv1 : Inception
  conv2 : Inception
  conv3 : Inception
  conv4 : Inception
  conv5 : Inception
  scale_ratio : Option ℚ

/-- Value semantics of `ReceptiveFieldsDenseBlock.forward`. -/
def ReceptiveFieldsDenseBlock.forward (self : ReceptiveFieldsDenseBlock)
    (input : Tensor) : M Tensor := do
  let conv1 ← self.conv1.forward input
  let c2 ← liftS (catV [input, conv1])
  let conv2 ← self.conv2.forward c2
  let c3 ← liftS (catV [input, conv1, conv2])
  let conv3 ← self.conv3.forward c3
  let c4 ← liftS (catV [input, conv1, conv2, conv3])
  let conv4 ← self.conv4.forward c4
  let c5 ← liftS (catV [input, conv1, conv2, conv3, conv4])
  let conv5 ← self.conv5.forward c5
  match self.scale_ratio with
  | none => Except.error MErr.missingAttribute
  | some r => liftS (addV (mulScalarV conv5 r) input)

/-- Parameters of a `ResidualInResidualFieldsDenseBlock`. -/
structure ResidualInResidualFieldsDenseBlock where
  RFDB1 : ReceptiveFieldsDenseBlock
  RFDB2 : ReceptiveFieldsDenseBlock
  RFDB3 : ReceptiveFieldsDenseBlock
  scale_ratio : Option ℚ

/-- Value semantics of `ResidualInResidualFieldsDenseBlock.forward`. -/
def ResidualInResidualFieldsDenseBlock.forward
    (self : ResidualInResidualFieldsDenseBlock) (input : Tensor) : M Tensor := do
  let out ← self.RFDB1.forward input
  let out ← self.RFDB2.forward out
  let out ← self.RFDB3.forward out
  match self.scale_ratio with
  | none => Except.error MErr.missingAttribute
  | some r => liftS (addV (mulScalarV out r) input)

/-- Parameters of a `ResidualDenseBlock`. -/
structure ResidualDenseBlock where
  in_channels : ℕ
  growth_channels : ℕ
  conv1W : Weight
  conv2W : Weight
  conv3W : Weight
  conv4W : Weight
  conv5W : Weight
  scale_ratio : Option ℚ

/-- Value semantics of `ResidualDenseBlock.forward`. -/
def ResidualDenseBlock.forward (self : ResidualDenseBlock) (input : Tensor) :
    M Tensor :=
  let ic := self.in_channels
  let gc := self.growth_channels
  do
  let conv1 ← liftS (conv2dV ⟨ic + 0 * gc, gc, 3, 3, 1, 1, 1, 1, 1, 1⟩ self.conv1W input)
  let conv1 := leakyReluV 0.2 conv1
  let c2 ← liftS (catV [input, conv1])
  let conv2 ← liftS (conv2dV ⟨ic + 1 * gc, gc, 3, 3, 1, 1, 1, 1, 1, 1⟩ self.conv2W c2)
  let conv2 := leakyReluV 0.2 conv2
  let c3 ← liftS (catV [input, conv1, conv2])
  let conv3 ← liftS (conv2dV ⟨ic + 2 * gc, gc, 3, 3, 1, 1, 1, 1, 1, 1⟩ self.conv3W c3)
  let conv3 := leakyReluV 0.2 conv3
  let c4 ← liftS (catV [input, conv1, conv2, conv3])
  let conv4 ← liftS (conv2dV ⟨ic + 3 * gc, gc, 3, 3, 1, 1, 1, 1, 1, 1⟩ self.conv4W c4)
  let conv4 := leakyReluV 0.2 conv4
  let c5 ← liftS (catV [input, conv1, conv2, conv3, conv4])
  let conv5 ← liftS (conv2dV ⟨ic + 4 * gc, ic, 3, 3, 1, 1, 1, 1, 1, 1⟩ self.conv5W c5)
  let conv5 := leakyReluV 0.2 conv5
  match self.scale_ratio with
  | none => Except.error MErr.missingAttribute
  | some r => liftS (addV (mulScalarV conv5 r) input)

/-- Parameters of a `ResidualInResidualDenseBlock`. -/
structure ResidualInResidualDenseBlock where
  RBD1 : ResidualDenseBlock
  RBD2 : ResidualDenseBlock
  RBD3 : ResidualDenseBlock
  scale_ratio : Option ℚ

/-- Value semantics of `ResidualInResidualDenseBlock.forward`. -/
def ResidualInResidualDenseBlock.forward (self : ResidualInResidualDenseBlock)
    (input : Tensor) : M Tensor := do
  let out ← self.RBD1.forward input
  let out ← self.RBD2.forward out
  let out ← self.RBD3.forward out
  match self.scale_ratio with
  | none => Except.error MErr.missingAttribute
  | some r => liftS (addV (mulScalarV out r) input)

/-- One layer of the generator's upsampling `nn.Sequential`, with its
parameters. -/
inductive UpLayer where
  | upsample2
  | inception (m : Inception)
  | conv (cfg : Conv2dCfg) (wt : Weight)
  | lrelu
  | pixelShuffle2

/-- Value action of one upsampling layer. -/
def UpLayer.applyV : UpLayer → Tensor → M Tensor
  | .upsample2, t => Except.ok (upsample2V t)
  | .inception m, t => m.forward t
  | .conv cfg wt, t => liftS (conv2dV cfg wt t)
  | .lrelu, t => Except.ok (leakyReluV 0.2 t)
  | .pixelShuffle2, t => liftS (pixelShuffle2V t)

/-- Value action of the upsampling `nn.Sequential`. -/
def runUpV : List UpLayer → Tensor → M Tensor
  | [], t => Except.ok t
  | l :: ls, t => l.applyV t >>= runUpV ls

/-- Sequential application of a list of sub-modules at value level. -/
def runBlocksV {α : Type} (f : α → Tensor → M Tensor) :
    List α → Tensor → M Tensor
  | [], t => Except.ok t
  | b :: bs, t => f b t >>= runBlocksV f bs

/-- Parameters of the `Generator`. -/
structure Generator where
  conv1W : Weight
  residual_residual_dense_blocks : List ResidualInResidualDenseBlock
  residual_residual_fields_dense_blocks : List ResidualInResidualFieldsDenseBlock
  conv2 : Inception
  upsampling : List UpLayer
  conv3aW : Weight
  conv3bW : Weight

/-- Value semantics of `Generator.forward`: a pure function of the parameters
and the input tensor — the source forward reads no other state, assigns no
attribute, and invokes no random or stateful layer (no dropout, no batch
normalization in the generator). -/
def Generator.forward (self : Generator) (input : Tensor) : M Tensor := do
  let out1 ← liftS (conv2dV ⟨3, 64, 3, 3, 1, 1, 1, 1, 1, 1⟩ self.conv1W input)
  let out2 ← runBlocksV ResidualInResidualDenseBlock.forward
    self.residual_residual_dense_blocks out1
  let out2 ← runBlocksV ResidualInResidualFieldsDenseBlock.forward
    self.residual_residual_fields_dense_blocks out2
  let out ← liftS (addV out1 out2)
  let out ← self.conv2.forward out
  let out ← runUpV self.upsampling out
  let out ← liftS (conv2dV ⟨64, 64, 3, 3, 1, 1, 1, 1, 1, 1⟩ self.conv3aW out)
  let out := leakyReluV 0.2 out
  let out ← liftS (conv2dV ⟨64, 3, 3, 3, 1, 1, 1, 1, 1, 1⟩ self.conv3bW out)
  return out

/-- The all-zero weight function. -/
def zeroW : Weight := fun _ _ _ _ => 0

/-- An `Inception` parameter record with zero weights. -/
def zeroInception : Inception :=
  { in_channels := 64, out_channels := 64, shortcutW := zeroW, b1aW := zeroW,
    b1bW := zeroW, b2aW := zeroW, b2bW := zeroW, b2cW := zeroW, b3aW := zeroW,
    b3bW := zeroW, b3cW := zeroW, b4aW := zeroW, b4bW := zeroW, b4cW := zeroW,
    b4dW := zeroW, conv1x1W := zeroW, lrelu := none, scale_ratio := some 0.2 }

/-- A concrete `Generator` parameter record. -/
def zeroGenerator : Generator :=
  { conv1W := zeroW, residual_residual_dense_blocks := [],
    residual_residual_fields_dense_blocks := [], conv2 := zeroInception,
    upsampling := [], conv3aW := zeroW, conv3bW := zeroW }

/-- A concrete input tensor. -/
def zeroTensor : Tensor := ⟨1, 3, 4, 4, fun _ _ _ _ => 0⟩

end Val

/-! ## Upsampling stage count -/

/-- Whether an upsampling layer is the `nn.Upsample(scale_factor=2)` layer
that opens one construction-loop iteration. -/
def isUpsampleLayer : UpLayer → Bool
  | .upsample2 => true
  | _ => false

/-- Number of upsampling stages in a generator: each stage contributes
exactly one `nn.Upsample` layer. -/
def upsampleStageCount (g : Generator) : ℕ :=
  g.upsampling.countP isUpsampleLayer

theorem countP_flatten_replicate_stage (k : ℕ) :
    ((List.replicate k upsampleStage).flatten.countP isUpsampleLayer) = k := by
  induction k with
  | zero => rfl
  | succ k ih =>
    rw [List.replicate_succ, List.flatten_cons, List.countP_append, ih]
    have hstage : List.countP isUpsampleLayer upsampleStage = 1 := by decide
    omega

theorem nat_log2_3 : Nat.log 2 3 = 1 :=
  Nat.log_eq_of_pow_le_of_lt_pow (by norm_num) (by norm_num)

theorem nat_log2_6 : Nat.log 2 6 = 2 :=
  Nat.log_eq_of_pow_le_of_lt_pow (by norm_num) (by norm_num)

/-! ## Claims -/

/-- Claim C1: for every input of shape (batch, 3, H, W), Generator.forward is
claimed to return a tensor of shape (batch, 3, H·f, W·f).  The code cannot do
this: already for upscale factor 4 and input shape (1, 3, 8, 8), the forward
pass raises a shape-mismatch error inside its first Inception-based block
instead of returning a (1, 3, 32, 32) tensor.  (Independently, each
upsampling stage contains both an Upsample(×2) and a PixelShuffle(×2), so a
stage quadruples the spatial extents rather than doubling them.) -/
theorem generator_upscale4_forward_raises :
    (Generator.init 4).forward ⟨1, 3, 8, 8⟩ = Except.error MErr.shapeMismatch :=
  generator_init_forward_err 4 ⟨1, 3, 8, 8⟩

/-- Claim C2: channel counts are claimed to match at every connection point,
in particular inside every branch of every Inception block.  In fact, in
Inception(64, 64) branch4's first convolution outputs channels//2 = 8
channels (first two conjuncts) while its second convolution declares
channels//4 = 4 input channels and rejects the 8-channel tensor (third
conjunct), so the whole forward pass raises a shape mismatch (fourth
conjunct). -/
theorem inception_branch4_channel_mismatch :
    runSeq ((Inception.init 64 64 (0.2 : ℚ) false).branch4.take 2) ⟨1, 64, 8, 8⟩ =
      some ⟨1, 8, 8, 8⟩ ∧
    runSeq ((Inception.init 64 64 (0.2 : ℚ) false).branch4.take 3) ⟨1, 64, 8, 8⟩ =
      none ∧
    conv2dShape ⟨4, 12, 1, 3, 1, 1, 0, 1, 1, 1⟩ ⟨1, 8, 8, 8⟩ = none ∧
    (Inception.init 64 64 (0.2 : ℚ) false).forward ⟨1, 64, 8, 8⟩ =
      Except.error MErr.shapeMismatch :=
  ⟨by decide, by decide, by decide,
   inception_init_forward_err 64 64 0.2 false ⟨1, 64, 8, 8⟩⟩

/-- Claim C3: for every module of the file and every tensor input, a forward
pass either returns or fails with a tensor shape mismatch — never with any
other runtime error such as a missing attribute.  (The unassigned
`scale_ratio` attribute of ReceptiveFieldsDenseBlock is modelled faithfully,
but the shape mismatch inside its first Inception layer always fires first,
so the AttributeError is unreachable.) -/
theorem forward_errors_are_shape_mismatches :
    (∀ s : Shape4, onlyShapeErrors (Discriminator.init.forward (some s))) ∧
    (∀ (uf : ℕ) (s : Shape4), onlyShapeErrors ((Generator.init uf).forward s)) ∧
    (∀ (ic oc : ℕ) (sc : ℚ) (nl : Bool) (s : Shape4),
      onlyShapeErrors ((Inception.init ic oc sc nl).forward s)) ∧
    (∀ (ic gc : ℕ) (sc : ℚ) (s : Shape4),
      onlyShapeErrors ((ReceptiveFieldsDenseBlock.init ic gc sc).forward s)) ∧
    (∀ (ic gc : ℕ) (sc : ℚ) (s : Shape4),
      onlyShapeErrors ((ResidualInResidualFieldsDenseBlock.init ic gc sc).forward s)) ∧
    (∀ (ic gc : ℕ) (sc : ℚ) (s : Shape4),
      onlyShapeErrors ((ResidualDenseBlock.init ic gc sc).forward s)) ∧
    (∀ (ic gc : ℕ) (sc : ℚ) (s : Shape4),
      onlyShapeErrors ((ResidualInResidualDenseBlock.init ic gc sc).forward s)) := by
  refine ⟨disc_forward_some_only, ?_, ?_, ?_, ?_, rdb_init_forward_only,
    rrdb_init_forward_only⟩
  · intro uf s
    rw [generator_init_forward_err]
    trivial
  · intro ic oc sc nl s
    rw [inception_init_forward_err]
    trivial
  · intro ic gc sc s
    rw [rfdb_init_forward_err]
    trivial
  · intro ic gc sc s
    rw [rrfdb_init_forward_err]
    trivial

/-- Claim C4: on every accepted input — channel count 3 and spatial extents
large enough for the five stride-2 stages (h, w ≥ 32) — the discriminator
forward pass returns one scalar score per batch element, i.e. a (batch, 1)
tensor, for arbitrary such h and w. -/
theorem discriminator_forward_score_shape (nb h w : ℕ) (hh : 32 ≤ h) (hw : 32 ≤ w) :
    Discriminator.init.forward (some ⟨nb, 3, h, w⟩) = Except.ok ⟨nb, 1⟩ :=
  disc_init_forward_ok nb h w hh hw

theorem discriminator_forward_score_shape_witness :
    32 ≤ 32 ∧ Discriminator.init.forward (some ⟨5, 3, 32, 33⟩) = Except.ok ⟨5, 1⟩ :=
  ⟨by decide, discriminator_forward_score_shape 5 32 33 (by decide) (by decide)⟩

/-- Claim C5: the claim states that whenever Generator.forward returns, the
output has 3 channels.  The premise is unsatisfiable: for every upscale
factor and every input shape the forward pass raises a shape-mismatch error
inside the Inception-based blocks, so no input exists on which it returns. -/
theorem generator_forward_never_returns (uf : ℕ) (s : Shape4) :
    (Generator.init uf).forward s = Except.error MErr.shapeMismatch :=
  generator_init_forward_err uf s

/-- Claim C6: every residual/dense block is claimed to compute
input + scale_ratio · correction.  ReceptiveFieldsDenseBlock cannot: its
constructor never assigns the `scale_ratio` attribute (first conjunct), and
its forward pass raises a shape mismatch on every input — here (1, 64, 4, 4)
— instead of returning the residual form (second conjunct). -/
theorem rfdb_residual_form_fails :
    (ReceptiveFieldsDenseBlock.init 64 32 (0.2 : ℚ)).scale_ratio = none ∧
    (ReceptiveFieldsDenseBlock.init 64 32 (0.2 : ℚ)).forward ⟨1, 64, 4, 4⟩ =
      Except.error MErr.shapeMismatch :=
  ⟨rfl, rfdb_init_forward_err 64 32 0.2 ⟨1, 64, 4, 4⟩⟩

/-- Claim C7: the generator forward pass is a deterministic function of the
weights and the input alone: two runs with equal parameter records and equal
input tensors produce equal results.  The value-level embedding is a pure
function because the source forward reads no state other than the parameters,
performs no attribute assignment, and uses no random or stateful layer. -/
theorem generator_forward_deterministic (p q : Val.Generator)
    (x y : Val.Tensor) (hp : p = q) (hx : x = y) :
    p.forward x = q.forward y := by
  rw [hp, hx]

theorem generator_forward_deterministic_witness :
    Val.zeroGenerator = Val.zeroGenerator ∧
    Val.zeroTensor = Val.zeroTensor ∧
    Val.Generator.forward Val.zeroGenerator Val.zeroTensor =
      Val.Generator.forward Val.zeroGenerator Val.zeroTensor :=
  ⟨rfl, rfl, generator_forward_deterministic Val.zeroGenerator Val.zeroGenerator
    Val.zeroTensor Val.zeroTensor rfl rfl⟩

/-- Claim C8: ResidualDenseBlock(64, 32) and ResidualInResidualDenseBlock(64,
32) preserve the shape of every (n, 64, h, w) input (first two conjuncts), so
the 16-block chain built by Generator.__init__ is shape-stable (third
conjunct) and the skip connection torch.add(out1, out2) is well-formed
(fourth conjunct). -/
theorem residual_blocks_preserve_shape :
    (∀ (sc : ℚ) (n h w : ℕ), 1 ≤ h → 1 ≤ w →
      (ResidualDenseBlock.init 64 32 sc).forward ⟨n, 64, h, w⟩ =
        Except.ok ⟨n, 64, h, w⟩) ∧
    (∀ (sc : ℚ) (n h w : ℕ), 1 ≤ h → 1 ≤ w →
      (ResidualInResidualDenseBlock.init 64 32 sc).forward ⟨n, 64, h, w⟩ =
        Except.ok ⟨n, 64, h, w⟩) ∧
    (∀ (uf n h w : ℕ), 1 ≤ h → 1 ≤ w →
      runBlocks ResidualInResidualDenseBlock.forward
        (Generator.init uf).residual_residual_dense_blocks ⟨n, 64, h, w⟩ =
        Except.ok ⟨n, 64, h, w⟩) ∧
    (∀ (n h w : ℕ), addShape ⟨n, 64, h, w⟩ ⟨n, 64, h, w⟩ = some ⟨n, 64, h, w⟩) := by
  refine ⟨rdb_init_forward_ok, rrdb_init_forward_ok, ?_, ?_⟩
  · intro uf n h w hh hw
    simp only [Generator.init]
    exact runBlocks_replicate_ok _ _ 16 _ (rrdb_init_forward_ok 0.2 n h w hh hw)
  · intro n h w
    simp [addShape, broadcastDim]

theorem residual_blocks_preserve_shape_witness :
    1 ≤ 1 ∧
    (ResidualDenseBlock.init 64 32 (0.2 : ℚ)).forward ⟨1, 64, 1, 1⟩ =
      Except.ok ⟨1, 64, 1, 1⟩ ∧
    (ResidualInResidualDenseBlock.init 64 32 (0.2 : ℚ)).forward ⟨2, 64, 3, 5⟩ =
      Except.ok ⟨2, 64, 3, 5⟩ :=
  ⟨by decide, residual_blocks_preserve_shape.1 0.2 1 1 1 (by decide) (by decide),
   residual_blocks_preserve_shape.2.1 0.2 2 3 5 (by decide) (by decide)⟩

/-- Claim C9: Discriminator.forward declares its parameter as optional with
default None, but a tensor is required: calling it with no argument fails
(the first convolution rejects the non-tensor None) and never returns a
score. -/
theorem discriminator_forward_default_none_fails :
    Discriminator.init.forward none = Except.error MErr.notATensor := rfl

/-- Claim C10: the constructor builds exactly int(log2(upscale_factor))
upsampling stages (first conjunct, counting the Upsample layers built by the
loop); for non-powers of two such as 3 and 6 the exponent is silently floored
rather than rejected (remaining conjuncts), and for upscale_factor = 1 the
upsampling sequence is empty (second conjunct). -/
theorem generator_upsampling_stage_count :
    (∀ uf : ℕ, 2 ≤ uf → upsampleStageCount (Generator.init uf) = Nat.log 2 uf) ∧
    (Generator.init 1).upsampling = [] ∧
    upsampleStageCount (Generator.init 3) = 1 ∧
    upsampleStageCount (Generator.init 6) = 2 ∧
    Nat.log 2 3 = 1 ∧ Nat.log 2 6 = 2 := by
  have hcount : ∀ uf : ℕ, upsampleStageCount (Generator.init uf) = Nat.log 2 uf := by
    intro uf
    simp only [upsampleStageCount, Generator.init]
    exact countP_flatten_replicate_stage _
  refine ⟨fun uf _ => hcount uf, ?_, ?_, ?_, nat_log2_3, nat_log2_6⟩
  · simp [Generator.init, Nat.log_one_right]
  · rw [hcount 3, nat_log2_3]
  · rw [hcount 6, nat_log2_6]

theorem generator_upsampling_stage_count_witness :
    2 ≤ 4 ∧ upsampleStageCount (Generator.init 4) = Nat.log 2 4 :=
  ⟨by decide, generator_upsampling_stage_count.1 4 (by decide)⟩
